import Mathlib

/-!
Verification development for the request-middleware repository.

Shallow embedding of:
- the error taxonomy and `normalizeError` (src/src/engine/errors.ts),
- the retry decorator `createRetryAdapter`, its helpers `checkShouldRetry`
  and `calculateDelay`, and the middleware-based variant
  `createRetryMiddleware` (src/src/middlewares/retry.ts),
- the push-to-pull streaming bridge `createAsyncQueue` and the event-source
  adapter models (src/unnamed/part_003).

Machine reals of the delay computation are modelled over `Rat`; the value of
`Math.random()` is passed as an explicit parameter `rand` with `0 ≤ rand < 1`.
-/

set_option autoImplicit false

namespace RequestMw

/-! ## String helpers

JavaScript `String.prototype.includes` is substring containment and
`toLowerCase` is character-wise lowering (the keywords involved are ASCII,
so `Char.toLower` is faithful here). -/

/-- Does the character list start with the given pattern? -/
def charsStartWith : List Char → List Char → Bool
  | [], _ => true
  | _ :: _, [] => false
  | p :: ps, c :: cs => p == c && charsStartWith ps cs

/-- Does the character list contain the pattern as a contiguous sublist? -/
def charsContain : List Char → List Char → Bool
  | [], pat => charsStartWith pat []
  | c :: rest, pat => charsStartWith pat (c :: rest) || charsContain rest pat

/-- JS `s.includes(pat)`. -/
def strIncludes (s pat : String) : Bool :=
  charsContain s.data pat.data

/-- JS `s.toLowerCase()` (ASCII-faithful). -/
def jsToLower (s : String) : String :=
  String.mk (s.data.map Char.toLower)

/-! ## Error taxonomy — src/src/engine/errors.ts -/

/-- `RequestErrorType` enum (errors.ts lines 10-23). -/
inductive RequestErrorType where
  | NETWORK
  | TIMEOUT
  | HTTP
  | ABORTED
  | PARSE
  | UNKNOWN
deriving DecidableEq

/-- The `RequestError` class (errors.ts lines 28-99), restricted to the
fields the claims observe: message, type and the optional HTTP status and
status text. -/
structure RequestError where
  message : String
  type : RequestErrorType
  status : Option Nat := none
  statusText : Option String := none
deriving DecidableEq

/-- JS truthiness of the optional numeric `status` field
(`this.status` as a boolean test: `undefined` and `0` are falsy). -/
def statusTruthy : Option Nat → Bool
  | some s => s != 0
  | none => false

/-- `RequestError.isNetworkError` (errors.ts line 61). -/
def RequestError.isNetworkError (e : RequestError) : Bool :=
  e.type == RequestErrorType.NETWORK

/-- `RequestError.isTimeoutError` (errors.ts line 65). -/
def RequestError.isTimeoutError (e : RequestError) : Bool :=
  e.type == RequestErrorType.TIMEOUT

/-- `RequestError.isHttpError` (errors.ts line 69). -/
def RequestError.isHttpError (e : RequestError) : Bool :=
  e.type == RequestErrorType.HTTP

/-- `RequestError.isAbortedError` (errors.ts line 73). -/
def RequestError.isAbortedError (e : RequestError) : Bool :=
  e.type == RequestErrorType.ABORTED

/-- `RequestError.isRetryable` (errors.ts lines 80-85):
network and timeout are retryable; HTTP is retryable when the status is
truthy and at least 500. -/
def RequestError.isRetryable (e : RequestError) : Bool :=
  if e.type == RequestErrorType.NETWORK then true
  else if e.type == RequestErrorType.TIMEOUT then true
  else if e.type == RequestErrorType.HTTP && statusTruthy e.status
      && 500 ≤ e.status.getD 0 then true
  else false

/-- A raw JavaScript failure value, as discriminated by `normalizeError`:
an already-typed `RequestError`, a `DOMException` (carries a name), a
`TypeError`, a generic `Error` (name and message), a string, or any other
non-`Error` value. -/
inductive JSError where
  | requestError (e : RequestError)
  | domException (name : String) (message : String)
  | typeError (message : String)
  | error (name : String) (message : String)
  | string (s : String)
  | nonError
deriving DecidableEq

/-- The `error instanceof Error` branch of `normalizeError`
(errors.ts lines 201-222): timeout keyword, then abort name/keyword, then
network keywords, then UNKNOWN.  `TypeError` and non-abort `DOMException`
values also reach this branch (both extend `Error`). -/
def normalizeGenericError (name message : String) : RequestError :=
  if strIncludes (jsToLower message) "timeout" then
    { message := message, type := RequestErrorType.TIMEOUT }
  else if name == "AbortError" || strIncludes (jsToLower message) "abort" then
    { message := message, type := RequestErrorType.ABORTED }
  else if strIncludes (jsToLower message) "network"
      || strIncludes (jsToLower message) "failed to fetch"
      || strIncludes (jsToLower message) "econnrefused" then
    { message := message, type := RequestErrorType.NETWORK }
  else
    { message := message, type := RequestErrorType.UNKNOWN }

/-- `normalizeError` (errors.ts lines 183-229).  Branch order as in the
source: already-typed, `DOMException` named `AbortError`, `TypeError` whose
message contains `fetch` or `network` (case-sensitive), then the generic
`Error` branch, then the string/other fallback. -/
def normalizeError (error : JSError) : RequestError :=
  match error with
  | JSError.requestError e => e
  | JSError.domException name message =>
    if name == "AbortError" then
      { message := "Request aborted", type := RequestErrorType.ABORTED }
    else
      normalizeGenericError name message
  | JSError.typeError message =>
    if strIncludes message "fetch" || strIncludes message "network" then
      { message := message, type := RequestErrorType.NETWORK }
    else
      normalizeGenericError "TypeError" message
  | JSError.error name message => normalizeGenericError name message
  | JSError.string s => { message := s, type := RequestErrorType.UNKNOWN }
  | JSError.nonError =>
    { message := "Unknown error", type := RequestErrorType.UNKNOWN }

/-- `isRequestError` (errors.ts lines 247-249). -/
def isRequestError : JSError → Bool
  | JSError.requestError _ => true
  | _ => false

/-- `isRetryableError` (errors.ts lines 254-259). -/
def isRetryableError : JSError → Bool
  | JSError.requestError e => e.isRetryable
  | _ => false

/-! ## Retry decorator — src/src/middlewares/retry.ts -/

/-- `DEFAULT_RETRYABLE_STATUS_CODES` (retry.ts line 36). -/
def DEFAULT_RETRYABLE_STATUS_CODES : List Nat := [408, 429, 500, 502, 503, 504]

/-- Backoff strategy. -/
inductive Backoff where
  | linear
  | exponential
deriving DecidableEq

/-- `calculateDelay` (retry.ts lines 41-60), over `Rat`, with the value of
`Math.random()` passed as `rand`. Exponential: `baseDelay * 2^attempt`, plus
`delay * rand * 0.25` jitter; linear: `baseDelay * (attempt + 1)`; both
finally clamped by `Math.min(delay, maxDelay)`. -/
def calculateDelay (attempt : Nat) (backoff : Backoff)
    (baseDelay maxDelay rand : Rat) : Rat :=
  if backoff == Backoff.exponential then
    let d := baseDelay * 2 ^ attempt
    min (d + d * rand * (1 / 4)) maxDelay
  else
    min (baseDelay * ((attempt : Rat) + 1)) maxDelay

/-- `checkShouldRetry` (retry.ts lines 72-99): the custom predicate takes
priority; otherwise, for a `RequestError`: aborted never retries, an HTTP
error with a truthy status consults the retryable status-code list, anything
else falls back to `isRetryable`; non-`RequestError` values use
`isRetryableError`. -/
def checkShouldRetry (error : JSError) (attempt : Nat)
    (retryableStatusCodes : List Nat)
    (customShouldRetry : Option (JSError → Nat → Bool)) : Bool :=
  match customShouldRetry with
  | some f => f error attempt
  | none =>
    match error with
    | JSError.requestError e =>
      if e.isAbortedError then false
      else if e.isHttpError && statusTruthy e.status then
        retryableStatusCodes.contains (e.status.getD 0)
      else e.isRetryable
    | other => isRetryableError other

/-- The attempt loop of `createRetryAdapter.request` (retry.ts lines
122-154), from attempt number `attempt` with `fuel = maxRetries - attempt`
remaining extra attempts.  The underlying transport is modelled as a map
from the call index to its outcome.  Returns the number of transport calls
made together with the final outcome.  The inter-attempt sleep and the
`onRetry` observer do not affect either and are omitted. -/
def retryFrom {R : Type} (adapter : Nat → Except JSError R)
    (retryableStatusCodes : List Nat)
    (customShouldRetry : Option (JSError → Nat → Bool)) (attempt : Nat) :
    Nat → Nat × Except JSError R
  | 0 => (1, adapter attempt)
  | fuel + 1 =>
    match adapter attempt with
    | Except.ok r => (1, Except.ok r)
    | Except.error e =>
      if checkShouldRetry e attempt retryableStatusCodes customShouldRetry then
        let rest := retryFrom adapter retryableStatusCodes customShouldRetry
          (attempt + 1) fuel
        (rest.1 + 1, rest.2)
      else
        (1, Except.error e)

/-- `createRetryAdapter(adapter, options).request(config)` (retry.ts lines
104-157): run the attempt loop from attempt 0 with `maxRetries` extra
attempts allowed. -/
def createRetryAdapterRequest {R : Type} (adapter : Nat → Except JSError R)
    (maxRetries : Nat) (retryableStatusCodes : List Nat)
    (customShouldRetry : Option (JSError → Nat → Bool)) :
    Nat × Except JSError R :=
  retryFrom adapter retryableStatusCodes customShouldRetry 0 maxRetries

/-! ## Streaming bridge — `createAsyncQueue` (src/unnamed/part_003, lines 30-106)

The queue's mutable closure variables become an explicit state record; the
single outstanding pull promise (`resolveNext`/`rejectNext`) becomes the
`pending` flag, and settling the `done` promise becomes the `doneSettled`
flag.  A pull (`next`) returns the new state and its observable result; the
producer operations return the new state together with the result delivered
to a suspended pull, if any. -/

/-- State of `createAsyncQueue` (part_003 lines 30-47). -/
structure AsyncQueue (T E : Type) where
  isClosed : Bool
  failure : Option E
  values : List T
  pending : Bool
  doneSettled : Bool
deriving DecidableEq

/-- Initial state built by `createAsyncQueue()`. -/
def createAsyncQueue (T E : Type) : AsyncQueue T E :=
  { isClosed := false, failure := none, values := [], pending := false
  , doneSettled := false }

/-- Observable outcome of one pull against the queue. -/
inductive PullResult (T E : Type) where
  | value (v : T)
  | done
  | failed (e : E)
  | suspended
deriving DecidableEq

/-- The iterator's `next` (part_003 lines 52-67): reject with the stored
failure first; otherwise shift the oldest buffered value; otherwise, if
closed, settle `done` and produce the completion marker; otherwise suspend
the pull. -/
def AsyncQueue.next {T E : Type} (q : AsyncQueue T E) :
    AsyncQueue T E × PullResult T E :=
  match q.failure with
  | some e => (q, PullResult.failed e)
  | none =>
    match q.values with
    | v :: rest => ({ q with values := rest }, PullResult.value v)
    | [] =>
      if q.isClosed then ({ q with doneSettled := true }, PullResult.done)
      else ({ q with pending := true }, PullResult.suspended)

/-- `push` (part_003 lines 73-82): discarded after a terminal transition;
delivered directly to a suspended pull when one exists; buffered otherwise.
The second component is the result delivered to a suspended pull, if any. -/
def AsyncQueue.push {T E : Type} (q : AsyncQueue T E) (v : T) :
    AsyncQueue T E × Option (PullResult T E) :=
  if q.isClosed || q.failure.isSome then (q, none)
  else if q.pending then
    ({ q with pending := false }, some (PullResult.value v))
  else
    ({ q with values := q.values ++ [v] }, none)

/-- `close` (part_003 lines 83-92): no-op when already closed; otherwise
mark closed, resolve a suspended pull with the completion marker, and
settle `done`.  (`close` does not test `failure`; pulls still observe the
stored failure first.) -/
def AsyncQueue.close {T E : Type} (q : AsyncQueue T E) :
    AsyncQueue T E × Option (PullResult T E) :=
  if q.isClosed then (q, none)
  else if q.pending then
    ({ q with isClosed := true, pending := false, doneSettled := true },
      some PullResult.done)
  else
    ({ q with isClosed := true, doneSettled := true }, none)

/-- `fail` (part_003 lines 93-102): no-op after any terminal transition;
otherwise store the failure, reject a suspended pull with it, and settle
`done`. -/
def AsyncQueue.fail {T E : Type} (q : AsyncQueue T E) (e : E) :
    AsyncQueue T E × Option (PullResult T E) :=
  if q.failure.isSome || q.isClosed then (q, none)
  else if q.pending then
    ({ q with failure := some e, pending := false, doneSettled := true },
      some (PullResult.failed e))
  else
    ({ q with failure := some e, doneSettled := true }, none)

/-- One operation against the queue (producer side or a pull). -/
inductive QOp (T E : Type) where
  | push (v : T)
  | close
  | fail (e : E)
  | pull

/-- State reached after one operation. -/
def AsyncQueue.step {T E : Type} (q : AsyncQueue T E) : QOp T E → AsyncQueue T E
  | QOp.push v => (q.push v).1
  | QOp.close => q.close.1
  | QOp.fail e => (q.fail e).1
  | QOp.pull => q.next.1

/-! ## Event-source adapter — src/unnamed/part_003 -/

/-- `EventSourceMessage` (part_003 lines 10-14). -/
structure EventSourceMessage where
  data : String
  type : Option String := none
  id : Option String := none
deriving DecidableEq

/-- The fields of a fetch `Response` observed by the adapter's `onopen`. -/
structure OpenResponse where
  status : Nat
  statusText : String
  bodyText : Option String := none
deriving DecidableEq

/-- `Response.ok`: status in the range 200-299. -/
def OpenResponse.ok (r : OpenResponse) : Bool :=
  200 ≤ r.status && r.status < 300

/-- A plain JavaScript `Error` (name `"Error"`) with the ad-hoc `status`
and `body` fields the adapter's `onopen` attaches (part_003 lines 261-263).
This is not a `RequestError`. -/
structure PlainJsError where
  name : String
  message : String
  status : Option Nat := none
  body : Option String := none
deriving DecidableEq

/-- View of a plain error as a raw failure value for `normalizeError`. -/
def PlainJsError.toJSError (e : PlainJsError) : JSError :=
  JSError.error e.name e.message

/-- The error built by `onopen` for a non-ok response (part_003 lines
260-263): `new Error` with message
`HTTP Error: STATUS STATUSTEXT[ - BODY]` and the status attached. -/
def openHttpError (r : OpenResponse) : PlainJsError :=
  { name := "Error"
  , message := "HTTP Error: " ++ toString r.status ++ " " ++ r.statusText ++
      (match r.bodyText with
       | some t => " - " ++ t
       | none => "")
  , status := some r.status
  , body := r.bodyText }

/-- Observable outcome of the current variant's `onopen` handler. -/
structure ESOpenOutcome where
  queue : AsyncQueue EventSourceMessage PlainJsError
  settledAfter : Bool
  rejectedWith : Option PlainJsError
  resolvedStatus : Option (Nat × String)
  thrown : Option PlainJsError

/-- The current variant's `onopen` handler (part_003 lines 258-284), acting
on the session's queue and the `settled` flag.  Non-ok response: build the
plain HTTP error, fail the queue, reject the outer promise when not yet
settled, and rethrow.  Ok response: resolve the outer promise with the
session and the response metadata when not yet settled. -/
def esOnOpen (r : OpenResponse)
    (q : AsyncQueue EventSourceMessage PlainJsError) (settled : Bool) :
    ESOpenOutcome :=
  if !r.ok then
    let err := openHttpError r
    { queue := (q.fail err).1
    , settledAfter := true
    , rejectedWith := if settled then none else some err
    , resolvedStatus := none
    , thrown := some err }
  else
    { queue := q
    , settledAfter := true
    , rejectedWith := none
    , resolvedStatus := if settled then none else some (r.status, r.statusText)
    , thrown := none }

/-- `HttpMethod` (src/src/engine/middlewareTypes.ts). -/
inductive HttpMethod where
  | GET
  | POST
  | PUT
  | DELETE
  | PATCH
  | HEAD
  | OPTIONS
deriving DecidableEq

/-- What a variant of the event-source adapter does before the underlying
connection attempt. -/
structure PreConnectOutcome where
  thrown : Option RequestError
  sessionConstructed : Bool
  connectionAttempted : Bool
deriving DecidableEq

/-- Pre-connection phase of the current variant's `request` (part_003 lines
187-257): no method check exists; the queue and session are constructed and
`fetchEventSource` is invoked for every method. -/
def esCurrentPreConnect (_ : HttpMethod) : PreConnectOutcome :=
  { thrown := none, sessionConstructed := true, connectionAttempted := true }

/-- Pre-connection phase of the older variant's `request` (part_003 lines
405-461): a non-GET method throws a `RequestError` of UNKNOWN type before
`fetchEventSource` is invoked (lines 417-424); this variant never
constructs a stream session at all. -/
def esOlderPreConnect (method : HttpMethod) : PreConnectOutcome :=
  if method != HttpMethod.GET then
    { thrown := some
        { message := "EventSource adapter only supports GET requests"
        , type := RequestErrorType.UNKNOWN }
    , sessionConstructed := false
    , connectionAttempted := false }
  else
    { thrown := none, sessionConstructed := false, connectionAttempted := true }

/-! ## Middleware-based retry variant — `createRetryMiddleware`
(src/src/middlewares/retry.ts lines 186-257) -/

/-- The retry configuration record written to `ctx.state.retryConfig`. -/
structure RetryConfigRec where
  maxRetries : Nat
  backoff : Backoff
  baseDelay : Rat
  maxDelay : Rat
  retryableStatusCodes : List Nat
deriving DecidableEq

/-- The retry-related fields of `ctx.state` touched by the middleware. -/
structure MwState where
  retryConfig : Option RetryConfigRec := none
  retryAttempt : Option Nat := none
  retryDelay : Option Rat := none
deriving DecidableEq

/-- Observable outcome of one dispatch through `createRetryMiddleware`. -/
structure MwOutcome where
  nextCalls : Nat
  state : MwState
  result : Except JSError Unit

/-- One dispatch through the middleware returned by `createRetryMiddleware`
(retry.ts lines 199-256).  The continuation `next` is modelled by the
outcome of its single invocation.  The middleware records `retryConfig`,
calls `next` once via `executeWithRetry`; on failure it either rethrows at
once (attempt budget exhausted or not retryable) or records
`retryAttempt`/`retryDelay`, sleeps, and then still rethrows the same
error — it never re-invokes `next`. -/
def createRetryMiddlewareRun (opts : RetryConfigRec)
    (customShouldRetry : Option (JSError → Nat → Bool)) (rand : Rat)
    (nextResult : Except JSError Unit) : MwOutcome :=
  let st0 : MwState := { retryConfig := some opts }
  match nextResult with
  | Except.ok _ => { nextCalls := 1, state := st0, result := Except.ok () }
  | Except.error e =>
    if opts.maxRetries ≤ 0 then
      { nextCalls := 1, state := st0, result := Except.error e }
    else if !(checkShouldRetry e 0 opts.retryableStatusCodes customShouldRetry) then
      { nextCalls := 1, state := st0, result := Except.error e }
    else
      let delay := calculateDelay 0 opts.backoff opts.baseDelay opts.maxDelay rand
      { nextCalls := 1
      , state := { st0 with retryAttempt := some 1, retryDelay := some delay }
      , result := Except.error e }

/-! ## Lemmas about the retry loop -/

/-- One-step unfolding of the attempt loop: a successful call returns at
once. -/
lemma retryFrom_ok {R : Type} (adapter : Nat → Except JSError R)
    (codes : List Nat) (custom : Option (JSError → Nat → Bool))
    (att fuel : Nat) (r : R) (ha : adapter att = Except.ok r) :
    retryFrom adapter codes custom att (fuel + 1) = (1, Except.ok r) := by
  simp [retryFrom, ha]

/-- One-step unfolding: a retryable failure consumes one call and
continues with the next attempt. -/
lemma retryFrom_step {R : Type} (adapter : Nat → Except JSError R)
    (codes : List Nat) (custom : Option (JSError → Nat → Bool))
    (att fuel : Nat) (e : JSError) (ha : adapter att = Except.error e)
    (hc : checkShouldRetry e att codes custom = true) :
    retryFrom adapter codes custom att (fuel + 1)
      = ((retryFrom adapter codes custom (att + 1) fuel).1 + 1,
         (retryFrom adapter codes custom (att + 1) fuel).2) := by
  simp [retryFrom, ha, hc]

/-- One-step unfolding: a non-retryable failure rethrows after one call. -/
lemma retryFrom_stop {R : Type} (adapter : Nat → Except JSError R)
    (codes : List Nat) (custom : Option (JSError → Nat → Bool))
    (att fuel : Nat) (e : JSError) (ha : adapter att = Except.error e)
    (hc : checkShouldRetry e att codes custom = false) :
    retryFrom adapter codes custom att (fuel + 1) = (1, Except.error e) := by
  simp [retryFrom, ha, hc]

/-- With no custom predicate, an HTTP-kind error whose status is one of
500, 502, 503, 504 passes `checkShouldRetry` against the default
retryable-status set. -/
lemma checkShouldRetry_default_5xx (e : RequestError) (a s : Nat)
    (ht : e.type = RequestErrorType.HTTP) (hs : e.status = some s)
    (hm : s ∈ [500, 502, 503, 504]) :
    checkShouldRetry (JSError.requestError e) a
      DEFAULT_RETRYABLE_STATUS_CODES none = true := by
  fin_cases hm <;>
    simp [checkShouldRetry, RequestError.isAbortedError,
      RequestError.isHttpError, ht, hs, statusTruthy,
      DEFAULT_RETRYABLE_STATUS_CODES]

/-! ## Claim C1 -/

/-- A 500-class HTTP error whose status (501) is not in the default
retryable-status set. -/
def notImplementedError : RequestError :=
  { message := "HTTP Error: 501 Not Implemented"
  , type := RequestErrorType.HTTP
  , status := some 501
  , statusText := some "Not Implemented" }

/-- A transport that fails with the 501 error on its first two calls and
succeeds on the third. -/
def c1Transport : Nat → Except JSError String := fun n =>
  if n < 2 then Except.error (JSError.requestError notImplementedError)
  else Except.ok "success"

/-- C1 counterexample: a transport failing twice with an HTTP 501 error (a
500-class server error) and succeeding on the third call is called exactly
once by the retry adapter with `maxRetries = 3` and default options, and
the request rejects with the 501 error instead of resolving — because 501
is not in the default retryable-status set.  This refutes the claim that
every 500-class failure is retried. -/
theorem claim1_counterexample :
    createRetryAdapterRequest c1Transport 3 DEFAULT_RETRYABLE_STATUS_CODES none
      = (1, Except.error (JSError.requestError notImplementedError))
    ∧ (1 : Nat) ≠ 3 :=
  ⟨rfl, by decide⟩

/-- C1 (amended): for every underlying transport whose request fails on its
first two calls with HTTP errors whose statuses are 500-class statuses in
the default retryable set (500, 502, 503, 504) and succeeds on the third,
the adapter returned by `createRetryAdapter` with `maxRetries = 3` and
default options calls the underlying transport exactly 3 times and
resolves with the third call's success response. -/
theorem claim1_retry_three_calls {R : Type}
    (adapter : Nat → Except JSError R) (e0 e1 : RequestError) (resp : R)
    (s0 s1 : Nat)
    (h0 : adapter 0 = Except.error (JSError.requestError e0))
    (h1 : adapter 1 = Except.error (JSError.requestError e1))
    (h2 : adapter 2 = Except.ok resp)
    (ht0 : e0.type = RequestErrorType.HTTP) (hs0 : e0.status = some s0)
    (hm0 : s0 ∈ [500, 502, 503, 504])
    (ht1 : e1.type = RequestErrorType.HTTP) (hs1 : e1.status = some s1)
    (hm1 : s1 ∈ [500, 502, 503, 504]) :
    createRetryAdapterRequest adapter 3 DEFAULT_RETRYABLE_STATUS_CODES none
      = (3, Except.ok resp) := by
  have c0 := checkShouldRetry_default_5xx e0 0 s0 ht0 hs0 hm0
  have c1 := checkShouldRetry_default_5xx e1 1 s1 ht1 hs1 hm1
  have r2 : retryFrom adapter DEFAULT_RETRYABLE_STATUS_CODES none 2 1
      = (1, Except.ok resp) :=
    retryFrom_ok adapter DEFAULT_RETRYABLE_STATUS_CODES none 2 0 resp h2
  have r1 : retryFrom adapter DEFAULT_RETRYABLE_STATUS_CODES none 1 2
      = (2, Except.ok resp) := by
    have := retryFrom_step adapter DEFAULT_RETRYABLE_STATUS_CODES none 1 1
      (JSError.requestError e1) h1 c1
    rw [show (2 : Nat) = 1 + 1 from rfl, this, show (1 : Nat) + 1 = 2 from rfl,
      r2]
  have r0 : retryFrom adapter DEFAULT_RETRYABLE_STATUS_CODES none 0 3
      = (3, Except.ok resp) := by
    have := retryFrom_step adapter DEFAULT_RETRYABLE_STATUS_CODES none 0 2
      (JSError.requestError e0) h0 c0
    rw [show (3 : Nat) = 2 + 1 from rfl, this, show (0 : Nat) + 1 = 1 from rfl,
      r1]
  exact r0

/-- Concrete instantiation of the amended C1 theorem: a transport failing
twice with HTTP 503 and succeeding on the third call is called exactly 3
times and resolves with the success response. -/
theorem claim1_retry_three_calls_witness :
    createRetryAdapterRequest
      (fun n => if n < 2 then
          Except.error (JSError.requestError
            { message := "HTTP Error: 503 Service Unavailable"
            , type := RequestErrorType.HTTP, status := some 503
            , statusText := some "Service Unavailable" })
        else Except.ok "payload")
      3 DEFAULT_RETRYABLE_STATUS_CODES none
      = (3, Except.ok "payload") :=
  claim1_retry_three_calls
    (fun n => if n < 2 then
        Except.error (JSError.requestError
          { message := "HTTP Error: 503 Service Unavailable"
          , type := RequestErrorType.HTTP, status := some 503
          , statusText := some "Service Unavailable" })
      else Except.ok "payload")
    { message := "HTTP Error: 503 Service Unavailable"
    , type := RequestErrorType.HTTP, status := some 503
    , statusText := some "Service Unavailable" }
    { message := "HTTP Error: 503 Service Unavailable"
    , type := RequestErrorType.HTTP, status := some 503
    , statusText := some "Service Unavailable" }
    "payload" 503 503 rfl rfl rfl rfl rfl (by decide) rfl rfl (by decide)

/-! ## Claim C3 -/

/-- C3: for every underlying transport whose request always fails with an
HTTP 404 error, and every `maxRetries ≥ 1`, the adapter returned by
`createRetryAdapter` with no custom predicate and the default
retryable-status set calls the underlying transport exactly once and
rejects with that HTTP error. -/
theorem claim3_404_single_call {R : Type} (maxRetries : Nat)
    (hmr : 1 ≤ maxRetries) (e : RequestError)
    (ht : e.type = RequestErrorType.HTTP) (hs : e.status = some 404)
    (adapter : Nat → Except JSError R)
    (had : ∀ n, adapter n = Except.error (JSError.requestError e)) :
    createRetryAdapterRequest adapter maxRetries
      DEFAULT_RETRYABLE_STATUS_CODES none
      = (1, Except.error (JSError.requestError e)) := by
  obtain ⟨f, rfl⟩ : ∃ f, maxRetries = f + 1 := ⟨maxRetries - 1, by omega⟩
  have hc : checkShouldRetry (JSError.requestError e) 0
      DEFAULT_RETRYABLE_STATUS_CODES none = false := by
    simp [checkShouldRetry, RequestError.isAbortedError,
      RequestError.isHttpError, ht, hs, statusTruthy,
      DEFAULT_RETRYABLE_STATUS_CODES]
  exact retryFrom_stop adapter DEFAULT_RETRYABLE_STATUS_CODES none 0 f
    (JSError.requestError e) (had 0) hc

/-- Concrete instantiation of C3: a transport that always fails with HTTP
404 is called exactly once under `maxRetries = 5`. -/
theorem claim3_404_single_call_witness :
    createRetryAdapterRequest
      (fun _ => Except.error (JSError.requestError
        { message := "HTTP Error: 404 Not Found"
        , type := RequestErrorType.HTTP, status := some 404
        , statusText := some "Not Found" }) : Nat → Except JSError String)
      5 DEFAULT_RETRYABLE_STATUS_CODES none
      = (1, Except.error (JSError.requestError
        { message := "HTTP Error: 404 Not Found"
        , type := RequestErrorType.HTTP, status := some 404
        , statusText := some "Not Found" })) :=
  claim3_404_single_call 5 (by decide)
    { message := "HTTP Error: 404 Not Found"
    , type := RequestErrorType.HTTP, status := some 404
    , statusText := some "Not Found" }
    rfl rfl _ (fun _ => rfl)

/-! ## Claim C4 -/

/-- C4 counterexample: a `TypeError` whose message is `network timeout`
contains both a timeout keyword and a network keyword, yet `normalizeError`
classifies it as the network kind, because the `TypeError` branch
(case-sensitive `fetch`/`network` check) runs before the timeout-keyword
check.  This refutes the claim that every such error maps to the timeout
kind. -/
theorem claim4_counterexample :
    (normalizeError (JSError.typeError "network timeout")).type
      = RequestErrorType.NETWORK
    ∧ RequestErrorType.NETWORK ≠ RequestErrorType.TIMEOUT :=
  ⟨rfl, by decide⟩

/-- C4 (amended): `normalizeError` maps every raw failure deterministically
to exactly one taxonomy kind, in the priority order: already-typed →
abort-signal-exception → TypeError-with-fetch/network-keyword
(case-sensitive) → timeout-keyword → abort-name-or-keyword →
network-keyword → fallback unknown.  In particular a non-TypeError error
whose message contains a timeout keyword is the timeout kind even when the
message also contains a network keyword, while a TypeError whose message
contains `network` is the network kind even when it also contains a
timeout keyword. -/
theorem claim4_priority (name msg : String) (e : RequestError) :
    (normalizeError (JSError.requestError e) = e)
    ∧ (normalizeError (JSError.domException "AbortError" msg)
        = { message := "Request aborted", type := RequestErrorType.ABORTED })
    ∧ ((strIncludes msg "fetch" || strIncludes msg "network") = true →
        (normalizeError (JSError.typeError msg)).type
          = RequestErrorType.NETWORK)
    ∧ (strIncludes (jsToLower msg) "timeout" = true →
        (normalizeError (JSError.error name msg)).type
          = RequestErrorType.TIMEOUT)
    ∧ (strIncludes (jsToLower msg) "timeout" = false →
        (name == "AbortError" || strIncludes (jsToLower msg) "abort") = true →
        (normalizeError (JSError.error name msg)).type
          = RequestErrorType.ABORTED)
    ∧ (strIncludes (jsToLower msg) "timeout" = false →
        (name == "AbortError" || strIncludes (jsToLower msg) "abort") = false →
        (strIncludes (jsToLower msg) "network"
          || strIncludes (jsToLower msg) "failed to fetch"
          || strIncludes (jsToLower msg) "econnrefused") = true →
        (normalizeError (JSError.error name msg)).type
          = RequestErrorType.NETWORK)
    ∧ (strIncludes (jsToLower msg) "timeout" = false →
        (name == "AbortError" || strIncludes (jsToLower msg) "abort") = false →
        (strIncludes (jsToLower msg) "network"
          || strIncludes (jsToLower msg) "failed to fetch"
          || strIncludes (jsToLower msg) "econnrefused") = false →
        (normalizeError (JSError.error name msg)).type
          = RequestErrorType.UNKNOWN) := by
  refine ⟨rfl, rfl, ?_, ?_, ?_, ?_, ?_⟩
  · intro h
    simp [normalizeError, h]
  · intro h
    simp [normalizeError, normalizeGenericError, h]
  · intro h1 h2
    simp [normalizeError, normalizeGenericError, h1, h2]
  · intro h1 h2 h3
    simp [normalizeError, normalizeGenericError, h1, h2, h3]
  · intro h1 h2 h3
    simp [normalizeError, normalizeGenericError, h1, h2, h3]

/-- Concrete instantiations of the amended C4 priority order: a generic
error containing both keywords is timeout-kind; a TypeError containing
both keywords is network-kind. -/
theorem claim4_priority_witness :
    (normalizeError (JSError.error "Error" "network timeout")).type
      = RequestErrorType.TIMEOUT
    ∧ (normalizeError (JSError.typeError "network timeout")).type
      = RequestErrorType.NETWORK :=
  ⟨(claim4_priority "Error" "network timeout"
      { message := "", type := RequestErrorType.UNKNOWN }).2.2.2.1 (by decide),
   (claim4_priority "TypeError" "network timeout"
      { message := "", type := RequestErrorType.UNKNOWN }).2.2.1 (by decide)⟩

/-! ## Claim C6 -/

/-- C6: under exponential backoff the computed delay equals
`baseDelay * 2^attempt` plus jitter of at most a quarter of that value,
clamped, and never exceeds `maxDelay * 1.25`; under linear backoff it
equals `min(baseDelay * (attempt + 1), maxDelay)` with no jitter and never
exceeds `maxDelay`. -/
theorem claim6_calculateDelay (attempt : Nat) (base maxd r : Rat)
    (hm : 0 ≤ maxd) (hr0 : 0 ≤ r) (hr1 : r < 1) :
    (∃ j : Rat, 0 ≤ j ∧ j ≤ 1 / 4 ∧
      calculateDelay attempt Backoff.exponential base maxd r
        = min (base * 2 ^ attempt + base * 2 ^ attempt * j) maxd
      ∧ calculateDelay attempt Backoff.exponential base maxd r
        ≤ maxd * (5 / 4))
    ∧ calculateDelay attempt Backoff.linear base maxd r
        = min (base * ((attempt : Rat) + 1)) maxd
    ∧ calculateDelay attempt Backoff.linear base maxd r ≤ maxd := by
  refine ⟨⟨r * (1 / 4), by positivity, by linarith, ?_, ?_⟩, ?_, ?_⟩
  · simp only [calculateDelay]
    norm_num
    congr 1
    ring
  · have h1 : calculateDelay attempt Backoff.exponential base maxd r ≤ maxd := by
      simp only [calculateDelay]
      norm_num
    nlinarith
  · simp [calculateDelay]
  · have : calculateDelay attempt Backoff.linear base maxd r
        = min (base * ((attempt : Rat) + 1)) maxd := by
      simp [calculateDelay]
    rw [this]
    exact min_le_right _ _

/-- Concrete instantiation of C6 at `attempt = 1`, `baseDelay = 1000`,
`maxDelay = 2000`, `rand = 1/2` (in particular the spec's bound: the
exponential delay never exceeds 2500). -/
theorem claim6_calculateDelay_witness :
    (∃ j : Rat, 0 ≤ j ∧ j ≤ 1 / 4 ∧
      calculateDelay 1 Backoff.exponential 1000 2000 (1 / 2)
        = min (1000 * 2 ^ 1 + 1000 * 2 ^ 1 * j) 2000
      ∧ calculateDelay 1 Backoff.exponential 1000 2000 (1 / 2)
        ≤ 2000 * (5 / 4))
    ∧ calculateDelay 1 Backoff.linear 1000 2000 (1 / 2)
        = min (1000 * ((1 : Nat) + 1 : Rat)) 2000
    ∧ calculateDelay 1 Backoff.linear 1000 2000 (1 / 2) ≤ 2000 :=
  claim6_calculateDelay 1 1000 2000 (1 / 2) (by norm_num) (by norm_num)
    (by norm_num)

/-! ## Claim C2 -/

/-- C2: pushing `a` then `b` into a fresh streaming-bridge queue and then
closing it yields pulls in exactly the order `a`, `b`, completion marker,
and the queue's `done` promise is already settled by the close even though
no pull ever occurred before it. -/
theorem claim2_fifo_and_done (T E : Type) (a b : T) :
    (((((createAsyncQueue T E).push a).1.push b).1).close).1.doneSettled = true
    ∧ (((((createAsyncQueue T E).push a).1.push b).1).close).1.next.2
        = PullResult.value a
    ∧ (((((createAsyncQueue T E).push a).1.push b).1).close).1.next.1.next.2
        = PullResult.value b
    ∧ (((((createAsyncQueue T E).push a).1.push b).1).close).1.next.1.next.1.next.2
        = PullResult.done
    ∧ (((((createAsyncQueue T E).push a).1.push b).1).close).1.next.1.next.1.next.1.doneSettled
        = true :=
  ⟨rfl, rfl, rfl, rfl, rfl⟩

/-! ## Claim C5 -/

/-- C5: once `fail e` was the first terminal transition (the stored failure
is `e`), every pull rejects with that same stored `e` and leaves the state
unchanged, the stored failure survives any further operation (including a
later `close`, which is a no-op for all observable pull results: pulls on
the closed-after-failure state still reject with `e`); symmetrically,
calling `fail` after `close` is a complete no-op. -/
theorem claim5_terminal_transitions (T E : Type) (q : AsyncQueue T E)
    (e eLater : E) (op : QOp T E) :
    (q.failure = some e →
      q.next = (q, PullResult.failed e)
      ∧ (q.step op).failure = some e
      ∧ q.close.1.next = (q.close.1, PullResult.failed e))
    ∧ (q.isClosed = true → q.fail eLater = (q, none)) := by
  constructor
  · intro hf
    have hnext : ∀ q1 : AsyncQueue T E, q1.failure = some e →
        q1.next = (q1, PullResult.failed e) := by
      intro q1 h1
      simp [AsyncQueue.next, h1]
    have hclose : q.close.1.failure = some e := by
      simp only [AsyncQueue.close]
      split_ifs <;> simp [hf]
    refine ⟨hnext q hf, ?_, hnext _ hclose⟩
    cases op with
    | push v =>
      simp [AsyncQueue.step, AsyncQueue.push, hf]
    | close => exact hclose
    | fail e2 =>
      simp [AsyncQueue.step, AsyncQueue.fail, hf]
    | pull =>
      simp [AsyncQueue.step, AsyncQueue.next, hf]
  · intro hc
    simp [AsyncQueue.fail, hc]

/-- A queue that failed with `7` and was later closed. -/
def failedThenClosedQueue : AsyncQueue Nat Nat :=
  { isClosed := true, failure := some 7, values := [], pending := false
  , doneSettled := true }

/-- Concrete instantiation of C5 on a queue whose stored failure is `7`
and which is already closed: pulls reject with `7`, a further close leaves
pulls rejecting with `7`, and `fail 9` is a no-op. -/
theorem claim5_terminal_transitions_witness :
    (failedThenClosedQueue.next
        = (failedThenClosedQueue, PullResult.failed 7)
      ∧ (failedThenClosedQueue.step QOp.close).failure = some 7
      ∧ failedThenClosedQueue.close.1.next
        = (failedThenClosedQueue.close.1, PullResult.failed 7))
    ∧ failedThenClosedQueue.fail 9 = (failedThenClosedQueue, none) :=
  ⟨(claim5_terminal_transitions Nat Nat failedThenClosedQueue 7 9
      QOp.close).1 rfl,
   (claim5_terminal_transitions Nat Nat failedThenClosedQueue 7 9
      QOp.close).2 rfl⟩

/-! ## Claim C10 -/

/-- C10: every message pushed after the queue has closed or failed is
silently discarded — the push delivers nothing to any pull and returns the
queue state completely unchanged. -/
theorem claim10_push_after_terminal_discarded (T E : Type)
    (q : AsyncQueue T E) (v : T)
    (h : q.isClosed = true ∨ q.failure.isSome = true) :
    q.push v = (q, none) := by
  rcases h with h | h <;> simp [AsyncQueue.push, h]

/-- Concrete instantiation of C10: pushing `5` into an already-closed
queue changes nothing and delivers nothing. -/
theorem claim10_push_after_terminal_discarded_witness :
    AsyncQueue.push
      { isClosed := true, failure := none, values := [], pending := false
      , doneSettled := true : AsyncQueue Nat Nat } 5
      = ({ isClosed := true, failure := none, values := [], pending := false
         , doneSettled := true }, none) :=
  claim10_push_after_terminal_discarded Nat Nat
    { isClosed := true, failure := none, values := [], pending := false
    , doneSettled := true } 5 (Or.inl rfl)

/-! ## Claim C7 -/

/-- C7 counterexample: the error the adapter's `onopen` produces for a 500
response is a plain `Error` whose normalized taxonomy kind is UNKNOWN, not
the HTTP kind — refuting the claim that the outer promise rejects with an
HTTP-kind taxonomy error. -/
theorem claim7_counterexample :
    (normalizeError
        (openHttpError
          { status := 500, statusText := "Internal Server Error"
          , bodyText := none }).toJSError).type
      = RequestErrorType.UNKNOWN
    ∧ RequestErrorType.UNKNOWN ≠ RequestErrorType.HTTP :=
  ⟨rfl, by decide⟩

/-- C7 (amended): if the streaming source reports a non-success status on
open, the adapter's outer request promise rejects with a plain error
carrying the response's HTTP status (not an HTTP-kind taxonomy error), the
`onopen` handler rethrows it, and the session's queue independently
transitions to its sticky failure terminal state with `done` settled, so
that a caller awaiting the outer promise and a caller iterating the
session both observe the failure. -/
theorem claim7_open_failure (r : OpenResponse) (hok : r.ok = false) :
    (esOnOpen r (createAsyncQueue EventSourceMessage PlainJsError)
        false).rejectedWith = some (openHttpError r)
    ∧ (esOnOpen r (createAsyncQueue EventSourceMessage PlainJsError)
        false).thrown = some (openHttpError r)
    ∧ (openHttpError r).status = some r.status
    ∧ (esOnOpen r (createAsyncQueue EventSourceMessage PlainJsError)
        false).queue.failure = some (openHttpError r)
    ∧ (esOnOpen r (createAsyncQueue EventSourceMessage PlainJsError)
        false).queue.doneSettled = true
    ∧ (esOnOpen r (createAsyncQueue EventSourceMessage PlainJsError)
        false).queue.next
      = ((esOnOpen r (createAsyncQueue EventSourceMessage PlainJsError)
          false).queue, PullResult.failed (openHttpError r)) := by
  refine ⟨?_, ?_, rfl, ?_, ?_, ?_⟩ <;>
    simp [esOnOpen, hok, createAsyncQueue, AsyncQueue.fail, AsyncQueue.next,
      openHttpError]

/-- Concrete instantiation of the amended C7 at a 500 response. -/
theorem claim7_open_failure_witness :
    (esOnOpen
        { status := 500, statusText := "Internal Server Error"
        , bodyText := none }
        (createAsyncQueue EventSourceMessage PlainJsError)
        false).rejectedWith
      = some (openHttpError
        { status := 500, statusText := "Internal Server Error"
        , bodyText := none })
    ∧ (esOnOpen
        { status := 500, statusText := "Internal Server Error"
        , bodyText := none }
        (createAsyncQueue EventSourceMessage PlainJsError)
        false).queue.failure
      = some (openHttpError
        { status := 500, statusText := "Internal Server Error"
        , bodyText := none }) :=
  ⟨(claim7_open_failure
      { status := 500, statusText := "Internal Server Error"
      , bodyText := none } (by decide)).1,
   (claim7_open_failure
      { status := 500, statusText := "Internal Server Error"
      , bodyText := none } (by decide)).2.2.2.1⟩

/-! ## Claim C8 -/

/-- C8 counterexample: a POST request issued against the current
event-source adapter variant is not rejected before the connection
attempt — no error is thrown, the stream session is constructed, and the
connection is attempted. -/
theorem claim8_counterexample :
    (esCurrentPreConnect HttpMethod.POST).thrown = none
    ∧ (esCurrentPreConnect HttpMethod.POST).sessionConstructed = true
    ∧ (esCurrentPreConnect HttpMethod.POST).connectionAttempted = true :=
  ⟨rfl, rfl, rfl⟩

/-- C8 (amended): the non-GET guard belongs to the older event-source
adapter variant only: there, every non-GET request throws a `RequestError`
before any connection attempt and no stream session is ever constructed;
the current variant imposes no method restriction — it constructs the
session and attempts the connection for every method. -/
theorem claim8_non_get_guard (m : HttpMethod) (hm : m ≠ HttpMethod.GET) :
    esOlderPreConnect m
      = { thrown := some
            { message := "EventSource adapter only supports GET requests"
            , type := RequestErrorType.UNKNOWN }
        , sessionConstructed := false
        , connectionAttempted := false }
    ∧ esCurrentPreConnect m
      = { thrown := none, sessionConstructed := true
        , connectionAttempted := true } := by
  refine ⟨?_, rfl⟩
  simp [esOlderPreConnect, hm]

/-- Concrete instantiation of the amended C8 at method POST. -/
theorem claim8_non_get_guard_witness :
    esOlderPreConnect HttpMethod.POST
      = { thrown := some
            { message := "EventSource adapter only supports GET requests"
            , type := RequestErrorType.UNKNOWN }
        , sessionConstructed := false
        , connectionAttempted := false }
    ∧ esCurrentPreConnect HttpMethod.POST
      = { thrown := none, sessionConstructed := true
        , connectionAttempted := true } :=
  claim8_non_get_guard HttpMethod.POST (by decide)

/-! ## Claim C9 -/

/-- C9: the middleware-based retry variant records `retryConfig` in the
context's shared state, invokes its continuation `next` exactly once per
dispatch, ultimately rethrows the first failure instead of re-running the
chain, and on the retryable-failure path additionally records
`retryAttempt` and `retryDelay` before rethrowing. -/
theorem claim9_middleware_single_pass (opts : RetryConfigRec)
    (custom : Option (JSError → Nat → Bool)) (rand : Rat)
    (nextResult : Except JSError Unit) (e : JSError) :
    (createRetryMiddlewareRun opts custom rand nextResult).nextCalls = 1
    ∧ (createRetryMiddlewareRun opts custom rand nextResult).state.retryConfig
        = some opts
    ∧ (nextResult = Except.error e →
        (createRetryMiddlewareRun opts custom rand nextResult).result
          = Except.error e)
    ∧ (nextResult = Except.error e →
        checkShouldRetry e 0 opts.retryableStatusCodes custom = true →
        1 ≤ opts.maxRetries →
        (createRetryMiddlewareRun opts custom rand
            nextResult).state.retryAttempt = some 1
        ∧ (createRetryMiddlewareRun opts custom rand
            nextResult).state.retryDelay
          = some (calculateDelay 0 opts.backoff opts.baseDelay opts.maxDelay
              rand)) := by
  refine ⟨?_, ?_, ?_, ?_⟩
  · cases nextResult with
    | ok v => rfl
    | error e2 =>
      simp only [createRetryMiddlewareRun]
      split_ifs <;> rfl
  · cases nextResult with
    | ok v => rfl
    | error e2 =>
      simp only [createRetryMiddlewareRun]
      split_ifs <;> rfl
  · intro h
    subst h
    simp [createRetryMiddlewareRun]
    split_ifs <;> rfl
  · intro h hc hmr
    subst h
    have h0 : ¬ (opts.maxRetries ≤ 0) := by omega
    simp [createRetryMiddlewareRun, hc, h0]

/-- Concrete instantiation of C9: a dispatch whose continuation fails with
a retryable network error still calls `next` exactly once, records the
retry metadata, and rethrows that same error. -/
theorem claim9_middleware_single_pass_witness :
    (createRetryMiddlewareRun
        { maxRetries := 3, backoff := Backoff.exponential, baseDelay := 1000
        , maxDelay := 30000
        , retryableStatusCodes := DEFAULT_RETRYABLE_STATUS_CODES }
        none 0
        (Except.error (JSError.requestError
          { message := "Failed to fetch"
          , type := RequestErrorType.NETWORK }))).nextCalls = 1
    ∧ (createRetryMiddlewareRun
        { maxRetries := 3, backoff := Backoff.exponential, baseDelay := 1000
        , maxDelay := 30000
        , retryableStatusCodes := DEFAULT_RETRYABLE_STATUS_CODES }
        none 0
        (Except.error (JSError.requestError
          { message := "Failed to fetch"
          , type := RequestErrorType.NETWORK }))).result
      = Except.error (JSError.requestError
          { message := "Failed to fetch", type := RequestErrorType.NETWORK })
    ∧ (createRetryMiddlewareRun
        { maxRetries := 3, backoff := Backoff.exponential, baseDelay := 1000
        , maxDelay := 30000
        , retryableStatusCodes := DEFAULT_RETRYABLE_STATUS_CODES }
        none 0
        (Except.error (JSError.requestError
          { message := "Failed to fetch"
          , type := RequestErrorType.NETWORK }))).state.retryAttempt
      = some 1 :=
  ⟨(claim9_middleware_single_pass
      { maxRetries := 3, backoff := Backoff.exponential, baseDelay := 1000
      , maxDelay := 30000
      , retryableStatusCodes := DEFAULT_RETRYABLE_STATUS_CODES }
      none 0
      (Except.error (JSError.requestError
        { message := "Failed to fetch", type := RequestErrorType.NETWORK }))
      (JSError.requestError
        { message := "Failed to fetch"
        , type := RequestErrorType.NETWORK })).1,
   (claim9_middleware_single_pass
      { maxRetries := 3, backoff := Backoff.exponential, baseDelay := 1000
      , maxDelay := 30000
      , retryableStatusCodes := DEFAULT_RETRYABLE_STATUS_CODES }
      none 0
      (Except.error (JSError.requestError
        { message := "Failed to fetch", type := RequestErrorType.NETWORK }))
      (JSError.requestError
        { message := "Failed to fetch"
        , type := RequestErrorType.NETWORK })).2.2.1 rfl,
   ((claim9_middleware_single_pass
      { maxRetries := 3, backoff := Backoff.exponential, baseDelay := 1000
      , maxDelay := 30000
      , retryableStatusCodes := DEFAULT_RETRYABLE_STATUS_CODES }
      none 0
      (Except.error (JSError.requestError
        { message := "Failed to fetch", type := RequestErrorType.NETWORK }))
      (JSError.requestError
        { message := "Failed to fetch"
        , type := RequestErrorType.NETWORK })).2.2.2 rfl (by decide)
      (by decide)).1⟩

end RequestMw
